import Mathlib

/-!
Verification of the Smart ATS pipeline (`app.py`) against its design
specification.  The Python helpers are shallowly embedded as executable
Lean functions; external effects (the Gemini service, PDF libraries, OCR,
the Streamlit session store) are passed in explicitly as parameters or
modelled as explicit state, so every function here is pure and total.
-/

/-! ## JSON values

Embeds the values produced by Python's `json.loads`.  Objects keep the
`dict` semantics used by the CPython decoder: insertion order, with a
duplicated key updating the value in place.  Integer literals become
`Json.int`; literals with a fraction or exponent (and the non-standard
`NaN` / `Infinity` / `-Infinity` accepted by `json.loads`) are kept as
their source literal in `Json.fnum`, since no claim inspects a float's
numeric value. -/

inductive Json where
  | null : Json
  | bool (b : Bool) : Json
  | int (n : Int) : Json
  | fnum (lit : String) : Json
  | str (s : String) : Json
  | arr (elems : List Json) : Json
  | obj (members : List (String × Json)) : Json

/-- Python `dict` lookup `d.get(k)`; `none` on a non-mapping value. -/
def Json.getField : Json → String → Option Json
  | .obj members, k => (members.find? (fun kv => kv.1 == k)).map (fun kv => kv.2)
  | _, _ => none

/-- Whether the value is a JSON object (a Python mapping). -/
def Json.isObj : Json → Bool
  | .obj _ => true
  | _ => false

/-- `dict` insertion: a repeated key updates the stored value in place,
keeping its original position; a fresh key is appended. -/
def insertKV (members : List (String × Json)) (k : String) (v : Json) :
    List (String × Json) :=
  if members.any (fun kv => kv.1 == k) then
    members.map (fun kv => if kv.1 == k then (k, v) else kv)
  else
    members ++ [(k, v)]

/-! ## The `json.loads` decoder

A fuel-indexed recursive-descent parser for the grammar accepted by
CPython's `json.loads` with default arguments: strict strings (raw
control characters rejected), `\uXXXX` escapes with surrogate-pair
combination, no leading zeros in numbers, exact whitespace set
space/tab/newline/carriage-return, and the whole input consumed.  The
fuel only bounds recursion depth; `json_loads` supplies more fuel than
any input of that length can consume, so the fuel-exhaustion branch is
unreachable from `json_loads`. -/

/-! ### Python string primitives

The Python string methods the script uses (`strip`, `replace`,
`split("\n")`), implemented by structural recursion over the character
list so that every theorem below evaluates by `rfl`/`decide`. -/

/-- The ASCII characters `str.strip()` removes. -/
def isPySpace (c : Char) : Bool :=
  c == ' ' || c == '\t' || c == '\n' || c == '\x0d' || c == '\x0b' || c == '\x0c'

/-- Python `s.strip()` (ASCII whitespace; the script never feeds it
non-ASCII whitespace). -/
def pyStrip (s : String) : String :=
  String.mk (((s.data.dropWhile isPySpace).reverse.dropWhile isPySpace).reverse)

/-- Left-to-right replacement of every non-overlapping occurrence of
`pat` (non-empty at the one call site) by `repl`; fuel bounds the scan
by the input length. -/
def replaceAux (pat repl : List Char) : Nat → List Char → List Char
  | 0, cs => cs
  | Nat.succ _, [] => []
  | Nat.succ fuel, c :: cs =>
    if pat.isPrefixOf (c :: cs) then
      repl ++ replaceAux pat repl fuel ((c :: cs).drop pat.length)
    else
      c :: replaceAux pat repl fuel cs

/-- Python `s.replace(pat, repl)` (all occurrences). -/
def pyReplace (s pat repl : String) : String :=
  String.mk (replaceAux pat.data repl.data (s.data.length + 1) s.data)

/-- Python `s.split("\n")`: every segment kept, empties included. -/
def splitLinesAux : List Char → List (List Char)
  | [] => [[]]
  | c :: cs =>
    let rest := splitLinesAux cs
    if c == '\n' then [] :: rest
    else
      match rest with
      | seg :: segs => (c :: seg) :: segs
      | [] => [[c]]

/-- Python `s.split("\n")`. -/
def pySplitNL (s : String) : List String :=
  (splitLinesAux s.data).map String.mk

example : pyStrip "  a b\n" = "a b" := rfl
example : pyReplace "8%3%" "%" "" = "83" := rfl
example : pySplitNL "a\n\nb" = ["a", "", "b"] := rfl

/-- Skip JSON whitespace. -/
def skipWs : List Char → List Char
  | [] => []
  | c :: cs => if c == ' ' || c == '\t' || c == '\n' || c == '\r' then skipWs cs else c :: cs

/-- Value of a hexadecimal digit. -/
def hexVal (c : Char) : Option Nat :=
  if c.isDigit then some (c.toNat - 48)
  else if 'a' ≤ c ∧ c ≤ 'f' then some (c.toNat - 87)
  else if 'A' ≤ c ∧ c ≤ 'F' then some (c.toNat - 55)
  else none

/-- Parse exactly four hexadecimal digits. -/
def parseHex4 : List Char → Option (Nat × List Char)
  | a :: b :: c :: d :: rest => do
    let x ← hexVal a
    let y ← hexVal b
    let z ← hexVal c
    let w ← hexVal d
    pure (((x * 16 + y) * 16 + z) * 16 + w, rest)
  | _ => none

/-- Body of a JSON string after the opening quote.  `acc` holds decoded
characters in reverse.  A lone surrogate is mapped through `Char.ofNat`
(CPython keeps the lone surrogate; no claim exercises this corner). -/
def parseStrAux : Nat → List Char → List Char → Option (String × List Char)
  | 0, _, _ => none
  | Nat.succ _, _, [] => none
  | Nat.succ fuel, acc, c :: cs =>
    if c == '"' then some (String.mk acc.reverse, cs)
    else if c == '\\' then
      match cs with
      | [] => none
      | e :: cs2 =>
        if e == '"' then parseStrAux fuel ('"' :: acc) cs2
        else if e == '\\' then parseStrAux fuel ('\\' :: acc) cs2
        else if e == '/' then parseStrAux fuel ('/' :: acc) cs2
        else if e == 'b' then parseStrAux fuel ('\x08' :: acc) cs2
        else if e == 'f' then parseStrAux fuel ('\x0c' :: acc) cs2
        else if e == 'n' then parseStrAux fuel ('\n' :: acc) cs2
        else if e == 'r' then parseStrAux fuel ('\x0d' :: acc) cs2
        else if e == 't' then parseStrAux fuel ('\t' :: acc) cs2
        else if e == 'u' then
          match parseHex4 cs2 with
          | none => none
          | some (n, cs3) =>
            if 0xD800 ≤ n ∧ n ≤ 0xDBFF then
              match cs3 with
              | '\\' :: 'u' :: cs4 =>
                match parseHex4 cs4 with
                | some (m, cs5) =>
                  if 0xDC00 ≤ m ∧ m ≤ 0xDFFF then
                    parseStrAux fuel
                      (Char.ofNat (0x10000 + (n - 0xD800) * 0x400 + (m - 0xDC00)) :: acc) cs5
                  else parseStrAux fuel (Char.ofNat n :: acc) cs3
                | none => parseStrAux fuel (Char.ofNat n :: acc) cs3
              | _ => parseStrAux fuel (Char.ofNat n :: acc) cs3
            else parseStrAux fuel (Char.ofNat n :: acc) cs3
        else none
    else if c.toNat < 0x20 then none
    else parseStrAux fuel (c :: acc) cs

/-- Decimal value of a digit list. -/
def digitsVal (ds : List Char) : Nat :=
  ds.foldl (fun a c => a * 10 + (c.toNat - 48)) 0

/-- Integer part of a JSON number: `0`, or a nonzero digit followed by
digits (leading zeros rejected, as in `json.loads`). -/
def parseIntPart : List Char → Option (List Char × List Char)
  | [] => none
  | c :: cs =>
    if c == '0' then some ([c], cs)
    else if c.isDigit then
      some (c :: cs.takeWhile Char.isDigit, cs.dropWhile Char.isDigit)
    else none

/-- A JSON number (also the non-standard `Infinity` / `-Infinity`
literals `json.loads` accepts).  Pure integer literals yield
`Json.int`; anything with a fraction or exponent stays a `Json.fnum`
carrying its literal text. -/
def parseNumber (cs : List Char) : Option (Json × List Char) :=
  let (neg, cs1) :=
    match cs with
    | '-' :: rest => (true, rest)
    | _ => (false, cs)
  match cs1 with
  | 'I' :: 'n' :: 'f' :: 'i' :: 'n' :: 'i' :: 't' :: 'y' :: rest =>
    some (.fnum (if neg then "-Infinity" else "Infinity"), rest)
  | _ =>
    match parseIntPart cs1 with
    | none => none
    | some (ids, cs2) =>
      let fracRes : Option (List Char × List Char) :=
        match cs2 with
        | '.' :: cs3 =>
          match cs3.takeWhile Char.isDigit with
          | [] => none
          | fds => some ('.' :: fds, cs3.dropWhile Char.isDigit)
        | _ => some ([], cs2)
      match fracRes with
      | none => none
      | some (fcs, cs4) =>
        let expRes : Option (List Char × List Char) :=
          match cs4 with
          | e :: cs5 =>
            if e == 'e' || e == 'E' then
              let (sgn, cs6) :=
                match cs5 with
                | s :: rest => if s == '+' || s == '-' then ([s], rest) else ([], cs5)
                | [] => ([], cs5)
              match cs6.takeWhile Char.isDigit with
              | [] => none
              | eds => some (e :: (sgn ++ eds), cs6.dropWhile Char.isDigit)
            else some ([], cs4)
          | [] => some ([], cs4)
        match expRes with
        | none => none
        | some (ecs, cs7) =>
          if fcs.isEmpty && ecs.isEmpty then
            let n : Int := Int.ofNat (digitsVal ids)
            some (.int (if neg then -n else n), cs7)
          else
            some (.fnum (String.mk ((if neg then ['-'] else []) ++ ids ++ fcs ++ ecs)), cs7)

mutual

/-- One JSON value (leading whitespace allowed). -/
def parseValue : Nat → List Char → Option (Json × List Char)
  | 0, _ => none
  | Nat.succ fuel, cs =>
    match skipWs cs with
    | 'n' :: 'u' :: 'l' :: 'l' :: rest => some (.null, rest)
    | 't' :: 'r' :: 'u' :: 'e' :: rest => some (.bool true, rest)
    | 'f' :: 'a' :: 'l' :: 's' :: 'e' :: rest => some (.bool false, rest)
    | 'N' :: 'a' :: 'N' :: rest => some (.fnum "NaN", rest)
    | '"' :: rest => (parseStrAux (rest.length + 1) [] rest).map (fun p => (.str p.1, p.2))
    | '\x7b' :: rest =>
      match skipWs rest with
      | '\x7d' :: rest2 => some (.obj [], rest2)
      | cs2 => parseMembers fuel cs2 []
    | '[' :: rest =>
      match skipWs rest with
      | ']' :: rest2 => some (.arr [], rest2)
      | cs2 => parseElems fuel cs2 []
    | cs' => parseNumber cs'

/-- Elements of a non-empty array, whitespace already skipped. -/
def parseElems : Nat → List Char → List Json → Option (Json × List Char)
  | 0, _, _ => none
  | Nat.succ fuel, cs, acc =>
    match parseValue fuel cs with
    | none => none
    | some (v, cs2) =>
      match skipWs cs2 with
      | ',' :: cs3 => parseElems fuel cs3 (acc ++ [v])
      | ']' :: cs3 => some (.arr (acc ++ [v]), cs3)
      | _ => none

/-- Members of a non-empty object, whitespace already skipped before the
key quote. -/
def parseMembers : Nat → List Char → List (String × Json) → Option (Json × List Char)
  | 0, _, _ => none
  | Nat.succ fuel, cs, acc =>
    match cs with
    | '"' :: rest =>
      match parseStrAux (rest.length + 1) [] rest with
      | none => none
      | some (key, cs2) =>
        match skipWs cs2 with
        | ':' :: cs3 =>
          match parseValue fuel cs3 with
          | none => none
          | some (v, cs4) =>
            match skipWs cs4 with
            | ',' :: cs5 => parseMembers fuel (skipWs cs5) (insertKV acc key v)
            | '\x7d' :: cs5 => some (.obj (insertKV acc key v), cs5)
            | _ => none
        | _ => none
    | _ => none

end

/-- `json.loads response`: one JSON value, whole input consumed;
`none` models the `json.JSONDecodeError` the caller catches. -/
def json_loads (s : String) : Option Json :=
  match parseValue (2 * s.length + 8) s.data with
  | some (v, rest) =>
    match skipWs rest with
    | [] => some v
    | _ => none
  | none => none

/-! ## `safe_json_parse` (app.py lines 106-117) -/

/-- The fallback `re.search(r"\x7b.*\x7d", response, re.DOTALL)`: the
leftmost-greedy match runs from the first opening brace to the last
closing brace of the whole input (`.` matches newlines under DOTALL),
provided that closing brace comes after the opening one. -/
def braceSpan (s : String) : Option String :=
  let cs := s.data
  match cs.findIdx? (fun c => c == '\x7b'), cs.reverse.findIdx? (fun c => c == '\x7d') with
  | some i, some rj =>
    let j := cs.length - 1 - rj
    if i < j then some (String.mk ((cs.drop i).take (j - i + 1))) else none
  | _, _ => none

/-- `safe_json_parse(response)`: try `json.loads` on the whole input;
on failure, retry on the greedy brace-delimited span; on failure again
(or when no span exists) return the Python error `dict` carrying the
original input under `"raw"`. -/
def safe_json_parse (response : String) : Json :=
  match json_loads response with
  | some v => v
  | none =>
    match braceSpan response with
    | some g =>
      match json_loads g with
      | some v => v
      | none => .obj [("error", .str "Failed to parse JSON"), ("raw", .str response)]
    | none => .obj [("error", .str "Invalid response format"), ("raw", .str response)]

example : json_loads "not json" = none := rfl

example : braceSpan "a\x7bx\x7db" = some "\x7bx\x7d" := rfl

/-! ## `get_gemini_response` (app.py lines 22-42)

The external service is a parameter mapping the attempt index to either
a raised exception (`Except.error` with the exception message) or a
returned response object.  The function's trace records the returned
value (`none` models Python falling off the end of the function and
implicitly returning `None`), the number of service invocations, and
the list of `time.sleep` durations in order. -/

/-- One candidate of a Gemini response; `parts` holds the text of each
content part. -/
structure Candidate where
  parts : List String

/-- A Gemini response object: its candidate list and its top-level
`.text` attribute (`none` when the attribute is `None`). -/
structure GeminiResponse where
  candidates : List Candidate
  text : Option String

/-- The body of one `try` iteration: a raised exception passes through;
on a response, `response.candidates[0].content.parts[0].text` is
returned when candidates exist (an empty `parts` list raising the
`IndexError` that the same `except` clause catches), else
`response.text or ""`. -/
def attemptOutcome (resp : Except String GeminiResponse) : Except String String :=
  match resp with
  | .error e => .error e
  | .ok r =>
    match r.candidates with
    | c :: _ =>
      match c.parts with
      | p :: _ => .ok p
      | [] => .error "IndexError: list index out of range"
    | [] => .ok (r.text.getD "")

/-- Trace of one `get_gemini_response` call. -/
structure GenTrace where
  result : Option String
  calls : Nat
  waits : List Nat

/-- The `for attempt in range(retries)` loop.  `fuel` is the number of
remaining loop iterations, so fuel `0` is exactly the loop running out
of iterations, after which Python returns `None`.  On an exception the
loop sleeps 2 seconds and continues while `attempt < retries - 1`, and
returns the marker string on the final attempt. -/
def geminiLoop (service : Nat → Except String GeminiResponse) (retries : Int) :
    Nat → Nat → GenTrace
  | _, 0 => { result := none, calls := 0, waits := [] }
  | attempt, Nat.succ fuel =>
    match attemptOutcome (service attempt) with
    | .ok t => { result := some t, calls := 1, waits := [] }
    | .error e =>
      if (attempt : Int) < retries - 1 then
        let rest := geminiLoop service retries (attempt + 1) fuel
        { result := rest.result, calls := rest.calls + 1, waits := 2 :: rest.waits }
      else
        { result := some ("❌ Error generating response: " ++ e), calls := 1, waits := [] }

/-- `get_gemini_response(input_prompt, json_mode, retries)`: run the
retry loop from attempt `0`; `range(retries)` has `retries.toNat`
iterations (empty when `retries ≤ 0`). -/
def get_gemini_response (service : Nat → Except String GeminiResponse) (retries : Int) :
    GenTrace :=
  geminiLoop service retries 0 retries.toNat

/-! ## `input_pdf_text` (app.py lines 44-65)

The PDF libraries are parameters: `direct` is the outcome of
`PdfReader`/`extract_text` (an exception, or the per-page
`extract_text()` results, `none` for a page yielding `None`), and `ocr`
is the outcome of `convert_from_bytes` + `pytesseract` (an exception
message, or the per-page recognized strings).  The returned flag
records whether the OCR fallback block was reached. -/

/-- The OCR fallback block: concatenate the per-image recognized text,
or return the error string when the block raises. -/
def ocrStage : Except String (List String) → String × Bool
  | .ok imgs => (String.join imgs, true)
  | .error e => ("❌ Error reading PDF (OCR failed): " ++ e, true)

/-- `input_pdf_text(uploaded_file)`: direct extraction concatenates
`page.extract_text() or ""` over the pages in order and is returned
when non-blank after `strip()`; otherwise (including when the first
`try` raises) the OCR fallback runs. -/
def input_pdf_text (direct : Except String (List (Option String)))
    (ocr : Except String (List String)) : String × Bool :=
  match direct with
  | .ok pages =>
    let text := String.join (pages.map (fun p => p.getD ""))
    if pyStrip text ≠ "" then (text, false) else ocrStage ocr
  | .error _ => ocrStage ocr

/-! ## Match-percentage normalization (app.py line 193)

`int(parsed["JD Match"].replace("%", "").strip())`: every `%` is
removed (`str.replace` replaces all occurrences), the result is
stripped, and `int` parses an optionally signed decimal numeral with
surrounding whitespace (`none` models the `ValueError` caught by the
surrounding `except`, on which the handler falls back to `st.json` of
the raw record instead of the gauge). -/

/-- Python `int(s)` on a string: optional surrounding whitespace, an
optional sign, then a non-empty run of ASCII decimal digits (the
underscore digit-grouping Python also accepts is not modelled; no
claim uses it). -/
def pythonInt (s : String) : Option Int :=
  let t := pyStrip s
  let signDigits : Bool × List Char :=
    match t.data with
    | '-' :: rest => (true, rest)
    | '+' :: rest => (false, rest)
    | cs => (false, cs)
  match signDigits with
  | (neg, ds) =>
    if !ds.isEmpty && ds.all Char.isDigit then
      some (if neg then -(Int.ofNat (digitsVal ds)) else Int.ofNat (digitsVal ds))
    else none

/-- The normalization the Evaluate handler applies to `JD Match`. -/
def normalizeMatch (s : String) : Option Int :=
  pythonInt (pyStrip (pyReplace s "%" ""))

/-- Modelled from the spec's words, for comparison with the code's
`normalizeMatch`: "strip any trailing percent sign and surrounding
whitespace, then parse as an integer". -/
def normalizeMatchSpec (s : String) : Option Int :=
  let t := pyStrip s
  let t2 :=
    match t.data.getLast? with
    | some '%' => String.mk t.data.dropLast
    | _ => t
  pythonInt (pyStrip t2)

example : normalizeMatchSpec "83%" = some 83 := rfl

/-! ## `generate_pdf` (app.py lines 119-133)

The ReportLab story is modelled at flowable granularity: `doc.build`
renders the story into the `BytesIO` buffer, whose position sits at the
end of the written data until `buffer.seek(0)`. -/

/-- A ReportLab flowable appended to the story. -/
inductive Flowable where
  | paragraph (text : String) (style : String) : Flowable
  | spacer (width : Int) (height : Int) : Flowable

/-- The story-building loop: for each line of `text.split("\n")`, a
non-blank line appends `Paragraph(line.strip(), styles["Normal"])` and
`Spacer(1, 12)`; blank lines append nothing. -/
def buildStory : List String → List Flowable
  | [] => []
  | line :: rest =>
    if pyStrip line ≠ "" then
      Flowable.paragraph (pyStrip line) "Normal" :: Flowable.spacer 1 12 :: buildStory rest
    else
      buildStory rest

/-- The `BytesIO` buffer with the built document, at flowable
granularity: `content` is what `doc.build` wrote, `pos` the stream
position. -/
structure PdfBuffer where
  content : List Flowable
  pos : Nat

/-- `generate_pdf(text)`: build the story from the lines of `text`,
render it into the buffer (leaving the position at the end of the
written data), then `buffer.seek(0)` and return the buffer. -/
def generate_pdf (text : String) : PdfBuffer :=
  let story := buildStory (pySplitNL text)
  let buffer : PdfBuffer := { content := story, pos := story.length }
  { buffer with pos := 0 }

/-- The paragraph texts of a story, in order. -/
def paragraphsOf (story : List Flowable) : List String :=
  story.filterMap (fun f =>
    match f with
    | .paragraph t _ => some t
    | _ => none)

/-! ## Session state (app.py lines 167-177 and 212-215)

`st.session_state` holds exactly the two keys the script ever writes:
`"resume_text"` and `"jd"` (both initialized to `None` by
`setdefault`).  The Evaluate handler's effect on it and the Optimize
handler's effect on it are modelled as state transformers; every other
value in the script is recomputed per rerun. -/

/-- The script's `st.session_state`: its only keys. -/
structure SessionState where
  resume_text : Option String
  jd : Option String

/-- Effect of the Evaluate Resume handler on the session state: when a
file is uploaded and the job description is non-blank, both keys are
assigned (the extracted text and the submitted description); otherwise
the handler only warns and the state is untouched.  Nothing later in
the handler writes to the session state. -/
def evaluateSessionUpdate (st : SessionState) (uploaded : Option (List Nat))
    (jdInput : String) (extracted : String) : SessionState :=
  match uploaded with
  | some _ =>
    if pyStrip jdInput ≠ "" then { resume_text := some extracted, jd := some jdInput } else st
  | none => st

/-- Effect of the Optimize Resume handler on the session state: it only
reads `st.session_state["resume_text"]` and `st.session_state["jd"]`
and writes neither key. -/
def optimizeSessionUpdate (st : SessionState) : SessionState :=
  st

/-! ## Theorems -/

/-- Claim C1: `safe_json_parse` on the pure-JSON input
`{"JD Match":"72%","MissingKeywords":["Kubernetes","Go"],"Profile Summary":"X"}`
returns the mapping whose `JD Match` field is `"72%"`, whose
`MissingKeywords` field is `["Kubernetes", "Go"]`, and whose
`Profile Summary` field is `"X"`, with no `"error"` marker present. -/
theorem c1_safe_json_parse_pure_json :
    safe_json_parse "\x7b\"JD Match\":\"72%\",\"MissingKeywords\":[\"Kubernetes\",\"Go\"],\"Profile Summary\":\"X\"\x7d" =
      Json.obj [("JD Match", Json.str "72%"),
                ("MissingKeywords", Json.arr [Json.str "Kubernetes", Json.str "Go"]),
                ("Profile Summary", Json.str "X")]
    ∧ Json.getField (safe_json_parse "\x7b\"JD Match\":\"72%\",\"MissingKeywords\":[\"Kubernetes\",\"Go\"],\"Profile Summary\":\"X\"\x7d") "JD Match" =
        some (Json.str "72%")
    ∧ Json.getField (safe_json_parse "\x7b\"JD Match\":\"72%\",\"MissingKeywords\":[\"Kubernetes\",\"Go\"],\"Profile Summary\":\"X\"\x7d") "MissingKeywords" =
        some (Json.arr [Json.str "Kubernetes", Json.str "Go"])
    ∧ Json.getField (safe_json_parse "\x7b\"JD Match\":\"72%\",\"MissingKeywords\":[\"Kubernetes\",\"Go\"],\"Profile Summary\":\"X\"\x7d") "Profile Summary" =
        some (Json.str "X")
    ∧ Json.getField (safe_json_parse "\x7b\"JD Match\":\"72%\",\"MissingKeywords\":[\"Kubernetes\",\"Go\"],\"Profile Summary\":\"X\"\x7d") "error" =
        none :=
  ⟨rfl, rfl, rfl, rfl, rfl⟩

/-- Claim C3: on the prose-wrapped input, `safe_json_parse` locates the
greedy brace-delimited span (newlines included), parses it, and returns
the same record as the pure-JSON input would give: match `"50%"`, empty
keyword list, summary `"Y"`. -/
theorem c3_safe_json_parse_prose_wrapped :
    braceSpan "Here is the result:\n\x7b\"JD Match\":\"50%\",\"MissingKeywords\":[],\"Profile Summary\":\"Y\"\x7d\nThanks!" =
      some "\x7b\"JD Match\":\"50%\",\"MissingKeywords\":[],\"Profile Summary\":\"Y\"\x7d"
    ∧ safe_json_parse "Here is the result:\n\x7b\"JD Match\":\"50%\",\"MissingKeywords\":[],\"Profile Summary\":\"Y\"\x7d\nThanks!" =
        Json.obj [("JD Match", Json.str "50%"),
                  ("MissingKeywords", Json.arr []),
                  ("Profile Summary", Json.str "Y")]
    ∧ safe_json_parse "Here is the result:\n\x7b\"JD Match\":\"50%\",\"MissingKeywords\":[],\"Profile Summary\":\"Y\"\x7d\nThanks!" =
        safe_json_parse "\x7b\"JD Match\":\"50%\",\"MissingKeywords\":[],\"Profile Summary\":\"Y\"\x7d" :=
  ⟨rfl, rfl, rfl⟩

/-- Claim C4: whenever the input parses as JSON neither directly nor via
the brace-delimited-span fallback, `safe_json_parse` returns (without
raising) a record carrying an `"error"` key and a `"raw"` field equal to
the original input string exactly. -/
theorem c4_parse_failure_record (s : String)
    (h1 : json_loads s = none)
    (h2 : ∀ g, braceSpan s = some g → json_loads g = none) :
    (Json.getField (safe_json_parse s) "error").isSome = true
    ∧ Json.getField (safe_json_parse s) "raw" = some (Json.str s) := by
  cases hb : braceSpan s with
  | none =>
    have hs : safe_json_parse s =
        Json.obj [("error", Json.str "Invalid response format"), ("raw", Json.str s)] := by
      unfold safe_json_parse
      simp only [h1, hb]
    rw [hs]
    exact ⟨rfl, rfl⟩
  | some g =>
    have hs : safe_json_parse s =
        Json.obj [("error", Json.str "Failed to parse JSON"), ("raw", Json.str s)] := by
      unfold safe_json_parse
      simp only [h1, hb, h2 g hb]
    rw [hs]
    exact ⟨rfl, rfl⟩

/-- Witness for C4 at the garbage input `"{not json}"`: both parse
attempts fail and the error record carries the original input. -/
theorem c4_parse_failure_record_witness :
    (Json.getField (safe_json_parse "\x7bnot json\x7d") "error").isSome = true
    ∧ Json.getField (safe_json_parse "\x7bnot json\x7d") "raw" =
        some (Json.str "\x7bnot json\x7d") := by
  have h1 : json_loads "\x7bnot json\x7d" = none := rfl
  have h2 : ∀ g, braceSpan "\x7bnot json\x7d" = some g → json_loads g = none := by
    intro g hg
    have hb : braceSpan "\x7bnot json\x7d" = some "\x7bnot json\x7d" := rfl
    rw [hb] at hg
    injection hg with hg'
    rw [← hg']
    exact h1
  exact c4_parse_failure_record "\x7bnot json\x7d" h1 h2

/-- Claim C10: an input that is valid JSON but not a JSON object — here
`"[1, 2]"` — is returned by `safe_json_parse` as the parsed non-mapping
value itself, with no error marker and no three-field mapping. -/
theorem c10_non_object_passthrough :
    safe_json_parse "[1, 2]" = Json.arr [Json.int 1, Json.int 2]
    ∧ Json.isObj (safe_json_parse "[1, 2]") = false
    ∧ Json.getField (safe_json_parse "[1, 2]") "error" = none
    ∧ Json.getField (safe_json_parse "[1, 2]") "JD Match" = none :=
  ⟨rfl, rfl, rfl, rfl⟩

/-- One unfolding step of the retry loop when the current attempt's body
raises. -/
theorem geminiLoop_step (service : Nat → Except String GeminiResponse) (retries : Int)
    (attempt fuel : Nat) (e : String)
    (he : attemptOutcome (service attempt) = Except.error e) :
    geminiLoop service retries attempt (fuel + 1) =
      if (attempt : Int) < retries - 1 then
        { result := (geminiLoop service retries (attempt + 1) fuel).result,
          calls := (geminiLoop service retries (attempt + 1) fuel).calls + 1,
          waits := 2 :: (geminiLoop service retries (attempt + 1) fuel).waits }
      else
        { result := some ("❌ Error generating response: " ++ e), calls := 1, waits := [] } := by
  simp only [geminiLoop, he]

/-- When every service invocation from `attempt` on raises and
`attempt + fuel = retries` with at least one iteration left, the loop
makes exactly `fuel` calls, sleeps 2 units between consecutive attempts
(`fuel - 1` sleeps), and returns the diagnostic-marker string built from
the last attempt's exception. -/
theorem geminiLoop_all_fail (service : Nat → Except String GeminiResponse) (retries : Int) :
    ∀ fuel attempt : Nat, (attempt : Int) + fuel = retries → 1 ≤ fuel →
      (∀ i : Nat, attempt ≤ i → (i : Int) < retries → ∃ e, service i = Except.error e) →
      (geminiLoop service retries attempt fuel).calls = fuel
      ∧ (∃ e, service (attempt + (fuel - 1)) = Except.error e
           ∧ (geminiLoop service retries attempt fuel).result =
               some ("❌ Error generating response: " ++ e))
      ∧ (geminiLoop service retries attempt fuel).waits = List.replicate (fuel - 1) 2 := by
  intro fuel
  induction fuel with
  | zero => intro attempt _ h2 _; omega
  | succ n ih =>
    intro attempt hsum _ hfail
    obtain ⟨e, he⟩ := hfail attempt le_rfl (by omega)
    have hout : attemptOutcome (service attempt) = Except.error e := by rw [he]; rfl
    cases n with
    | zero =>
      have hlt : ¬ ((attempt : Int) < retries - 1) := by omega
      rw [geminiLoop_step service retries attempt 0 e hout, if_neg hlt]
      exact ⟨rfl, ⟨e, he, rfl⟩, rfl⟩
    | succ m =>
      have hlt : (attempt : Int) < retries - 1 := by omega
      obtain ⟨ihc, ⟨e', he', hires⟩, ihw⟩ :=
        ih (attempt + 1) (by push_cast at hsum ⊢; omega) (by omega)
          (fun i hi hlt2 => hfail i (by omega) hlt2)
      rw [geminiLoop_step service retries attempt (m + 1) e hout, if_pos hlt]
      refine ⟨?_, ⟨e', ?_, ?_⟩, ?_⟩
      · show (geminiLoop service retries (attempt + 1) (m + 1)).calls + 1 = m + 1 + 1
        rw [ihc]
      · have harith : attempt + (m + 1 + 1 - 1) = attempt + 1 + (m + 1 - 1) := by omega
        rw [harith]
        exact he'
      · exact hires
      · show 2 :: (geminiLoop service retries (attempt + 1) (m + 1)).waits =
          List.replicate (m + 1 + 1 - 1) 2
        rw [ihw]
        rfl

/-- Claim C2: when every invocation of the service raises and
`retries ≥ 1`, `get_gemini_response` invokes the service exactly
`retries` times, returns (instead of raising) a string carrying the
diagnostic marker `"❌ Error generating response: "`, and sleeps a fixed
2 units between consecutive attempts (`retries - 1` sleeps). -/
theorem c2_retry_exhaustion (service : Nat → Except String GeminiResponse) (retries : Int)
    (hr : 1 ≤ retries)
    (hfail : ∀ i : Nat, (i : Int) < retries → ∃ e, service i = Except.error e) :
    (get_gemini_response service retries).calls = retries.toNat
    ∧ (∃ e, service (retries.toNat - 1) = Except.error e
         ∧ (get_gemini_response service retries).result =
             some ("❌ Error generating response: " ++ e))
    ∧ (get_gemini_response service retries).waits = List.replicate (retries.toNat - 1) 2 := by
  have h := geminiLoop_all_fail service retries retries.toNat 0 (by omega) (by omega)
    (fun i _ hlt => hfail i hlt)
  unfold get_gemini_response
  simpa using h

/-- Witness for C2 at a service that always raises `"boom"` with
`retries = 3`: exactly 3 calls, the marker string, two 2-unit sleeps. -/
theorem c2_retry_exhaustion_witness :
    (get_gemini_response (fun _ => Except.error "boom") 3).calls = (3 : Int).toNat
    ∧ (∃ e, (fun _ => (Except.error "boom" : Except String GeminiResponse)) ((3 : Int).toNat - 1) =
          Except.error e
        ∧ (get_gemini_response (fun _ => Except.error "boom") 3).result =
            some ("❌ Error generating response: " ++ e))
    ∧ (get_gemini_response (fun _ => Except.error "boom") 3).waits =
        List.replicate ((3 : Int).toNat - 1) 2 :=
  c2_retry_exhaustion (fun _ => Except.error "boom") 3 (by decide)
    (fun _ _ => ⟨"boom", rfl⟩)

/-- Claim C9: with `retries ≤ 0` the `for attempt in range(retries)`
loop body never runs, no service call is made, and the function falls
off its end returning Python's implicit `None` — never a completion or
error-marked string, violating the declared string contract. -/
theorem c9_nonpositive_retries (service : Nat → Except String GeminiResponse) (retries : Int)
    (h : retries ≤ 0) :
    get_gemini_response service retries = { result := none, calls := 0, waits := [] } := by
  unfold get_gemini_response
  have ht : retries.toNat = 0 := by omega
  rw [ht]
  rfl

/-- Witness for C9 at `retries = -1`: no call, `None` result. -/
theorem c9_nonpositive_retries_witness :
    get_gemini_response (fun _ => Except.error "boom") (-1) =
      { result := none, calls := 0, waits := [] } :=
  c9_nonpositive_retries (fun _ => Except.error "boom") (-1) (by decide)

/-- Claim C5: when direct per-page extraction succeeds and its
page-order concatenation (a page with no extractable text contributing
`""`) is non-empty after stripping, `input_pdf_text` returns exactly
that concatenation and the OCR fallback block is never reached. -/
theorem c5_direct_extraction (pages : List (Option String)) (ocr : Except String (List String))
    (h : pyStrip (String.join (pages.map (fun p => p.getD ""))) ≠ "") :
    input_pdf_text (Except.ok pages) ocr =
      (String.join (pages.map (fun p => p.getD "")), false) := by
  simp only [input_pdf_text]
  rw [if_pos h]

/-- Witness for C5 at a three-page document whose middle page has no
extractable text, with an OCR path that would fail if reached. -/
theorem c5_direct_extraction_witness :
    input_pdf_text (Except.ok [some "Hello ", none, some "World"]) (Except.error "no poppler") =
      (String.join ([some "Hello ", none, some "World"].map (fun p => p.getD "")), false) :=
  c5_direct_extraction [some "Hello ", none, some "World"] (Except.error "no poppler")
    (by decide)

/-- Counterexample to C6 as stated: the claim says normalization strips
a trailing percent sign and parses the remainder, so on `"%83"` (no
trailing sign) it would fail and fall back to the raw record; the code's
`replace("%", "")` removes every percent sign, so the code normalizes
`"%83"` to 83 and shows the gauge. -/
theorem c6_normalize_counterexample :
    normalizeMatch "%83" = some 83 ∧ normalizeMatchSpec "%83" = none :=
  ⟨rfl, rfl⟩

/-- Claim C6 amended: normalization removes every percent sign wherever
it occurs (not only trailing) and surrounding whitespace, then parses
the remainder as an integer; `"83%" ↦ 83`, `"83" ↦ 83`, `"N/A"` fails
(`none`, on which the handler falls back to `st.json` of the raw
record), and `"%83" ↦ 83`. -/
theorem c6_normalize_amended :
    normalizeMatch "83%" = some 83
    ∧ normalizeMatch "83" = some 83
    ∧ normalizeMatch "N/A" = none
    ∧ normalizeMatch "%83" = some 83 :=
  ⟨rfl, rfl, rfl, rfl⟩

/-- The paragraphs of the built story are exactly the stripped
non-blank lines, in order. -/
theorem paragraphsOf_buildStory (lines : List String) :
    paragraphsOf (buildStory lines) =
      (lines.filter (fun l => pyStrip l != "")).map (fun l => pyStrip l) := by
  induction lines with
  | nil => rfl
  | cons l rest ih =>
    by_cases h : pyStrip l = ""
    · have hb : buildStory (l :: rest) = buildStory rest := by
        simp [buildStory, h]
      have hf : List.filter (fun x => pyStrip x != "") (l :: rest) =
          List.filter (fun x => pyStrip x != "") rest := by
        simp [List.filter_cons, h]
      rw [hb, hf]
      exact ih
    · have hb : buildStory (l :: rest) =
          Flowable.paragraph (pyStrip l) "Normal" :: Flowable.spacer 1 12 ::
            buildStory rest := by
        simp [buildStory, h]
      have hf : List.filter (fun x => pyStrip x != "") (l :: rest) =
          l :: List.filter (fun x => pyStrip x != "") rest := by
        simp [List.filter_cons, h]
      rw [hb, hf]
      show pyStrip l :: paragraphsOf (buildStory rest) =
        pyStrip l :: (List.filter (fun x => pyStrip x != "") rest).map (fun x => pyStrip x)
      rw [ih]

/-- Claim C7: `generate_pdf` emits exactly one paragraph block per
non-blank line of its input, in line order, skipping blank lines
entirely; in particular 3 non-blank and 2 blank lines yield exactly 3
paragraph blocks; and the returned buffer is positioned at its start. -/
theorem c7_generate_pdf (text : String) :
    paragraphsOf (generate_pdf text).content =
      ((pySplitNL text).filter (fun l => pyStrip l != "")).map (fun l => pyStrip l)
    ∧ (generate_pdf text).pos = 0
    ∧ paragraphsOf (generate_pdf "One\n\nTwo\n\nThree").content = ["One", "Two", "Three"]
    ∧ ((pySplitNL "One\n\nTwo\n\nThree").filter (fun l => pyStrip l != "")).length = 3
    ∧ ((pySplitNL "One\n\nTwo\n\nThree").filter (fun l => pyStrip l == "")).length = 2 :=
  ⟨paragraphsOf_buildStory (pySplitNL text), rfl, rfl, rfl, rfl⟩

/-- Claim C8: the only cross-request mutable state is the pair
(`resume_text`, `jd`) in `st.session_state` (the only keys the script
ever writes, so `SessionState` has exactly those fields); a validated
evaluation request assigns both, overwriting whatever was there
(the result never depends on the previous state), and the optimization
handler reads them without modifying them. -/
theorem c8_session_state (st st' : SessionState) (doc : List Nat)
    (jdInput extracted : String) (h : pyStrip jdInput ≠ "") :
    evaluateSessionUpdate st (some doc) jdInput extracted =
      { resume_text := some extracted, jd := some jdInput }
    ∧ evaluateSessionUpdate st (some doc) jdInput extracted =
        evaluateSessionUpdate st' (some doc) jdInput extracted
    ∧ optimizeSessionUpdate st = st := by
  refine ⟨?_, ?_, rfl⟩ <;> simp [evaluateSessionUpdate, h]

/-- Witness for C8: a fresh evaluation replaces an older session pair
wholesale, and the overwrite is the same from any prior state. -/
theorem c8_session_state_witness :
    evaluateSessionUpdate ⟨some "old resume", some "old jd"⟩ (some [37]) "new jd" "new resume" =
      { resume_text := some "new resume", jd := some "new jd" }
    ∧ evaluateSessionUpdate ⟨some "old resume", some "old jd"⟩ (some [37]) "new jd" "new resume" =
        evaluateSessionUpdate ⟨none, none⟩ (some [37]) "new jd" "new resume"
    ∧ optimizeSessionUpdate ⟨some "old resume", some "old jd"⟩ =
        ⟨some "old resume", some "old jd"⟩ :=
  c8_session_state ⟨some "old resume", some "old jd"⟩ ⟨none, none⟩ [37] "new jd" "new resume"
    (by decide)
